import Mathlib

/-!
Verification of the blog-backend cache/fetch pipeline.

Shallow embedding of `src/blog_posts/hackmd.py` (syn-ai/blog-backend):
the `BlogPost` pydantic model, the `transform_note` normalizer, the
file cache (`get_from_cache` / `save_to_cache`), and the three route
handlers `fetch_blog_notes`, `fetch_blog_post`, `refresh_blog_notes`.

Modelling conventions:
* The cache file `data/notes_cache.json` is modelled as
  `CacheState := Option (List BlogPost)`: `none` when the file does not
  exist, `some notes` when it exists and holds the serialized list.
  Serialization round-trips, so reading back what was written yields the
  same list.
* Upstream HTTP (`requests.get` + `raise_for_status` + `.json()`) is
  modelled by an `Upstream` oracle giving the outcome of
  `GET /notes` (`listNotes`) and of `GET /notes/{id-or-slug}` (`getNote`).
  A `RequestException` covers both transport errors and the `HTTPError`
  raised by `raise_for_status` on a non-2xx status.  Successful responses
  are assumed to carry well-formed JSON note objects.
* A raw upstream note (a JSON dict) is modelled as a record of optional
  typed fields: `none` means the key is absent from the dict.  String
  fields carry strings; HackMD timestamps (`publishedAt`, `createdAt`,
  `lastChangedAt`) carry epoch integers.
* Each pipeline function additionally returns the final cache state and
  the number of upstream HTTP calls it performed, so that cache framing
  and call-count properties are statable.
-/

set_option maxRecDepth 8192

/-- Error raised while evaluating `transform_note`:
`keyError` models the Python `KeyError` from `post["id"]` / `post["title"]`;
`validationError` models the pydantic `ValidationError` when a field value
does not validate against the `BlogPost` model annotations. -/
inductive TransformError where
  | keyError
  | validationError
deriving DecidableEq, Repr

/-- Python `requests.exceptions.RequestException`: either the `HTTPError` raised
by `response.raise_for_status()` on a non-2xx status, or a transport
failure. -/
inductive RequestException where
  | httpStatus (code : Nat)
  | transport
deriving DecidableEq, Repr

/-- Errors surfaced by the route handlers. `httpException status` models
`fastapi.HTTPException(status_code := status, ...)` (the human-readable
`detail` string is not modelled).  `uncaught e` models an exception that
escapes the handler un-wrapped (in `fetch_blog_post`, `transform_note`
runs outside the `try` block).  `notFound` is never produced by the code;
it is declared so that claims distinguishing a not-found outcome from a
generic failure are statable. -/
inductive ApiError where
  | httpException (status : Nat)
  | notFound
  | uncaught (e : TransformError)
deriving DecidableEq, Repr

/-- The pydantic model `BlogPost` of `hackmd.py`.  Field types follow the
annotations: `id, title, content, excerpt, slug : str`;
`publishDate, lastModified : Optional[int]`;
`coverImage, readingTime : str | None`. -/
structure BlogPost where
  id : String
  title : String
  content : String
  publishDate : Option Int
  lastModified : Option Int
  excerpt : String
  slug : String
  coverImage : Option String
  readingTime : Option String
deriving DecidableEq, Repr

/-- A raw HackMD note object (a JSON dict).  `none` = key absent.
Timestamp fields are epoch integers in the HackMD API; the remaining
fields are strings. -/
structure RawNote where
  id : Option String
  title : Option String
  content : Option String
  publishedAt : Option Int
  createdAt : Option Int
  lastChangedAt : Option Int
  excerpt : Option String
  permalink : Option String
  shortId : Option String
  coverImage : Option String
  readingTime : Option String
deriving DecidableEq, Repr

/-- A Python value flowing into a pydantic `Optional[int]` field: either
an integer from the raw dict or the string default `""` written in
`transform_note` (`post.get("publishedAt", post.get("createdAt", ""))`,
`post.get("lastChangedAt", "")`). -/
inductive PyVal where
  | vint (n : Int)
  | vstr (s : String)
deriving DecidableEq, Repr

/-- Model of `post.get(key, default)` for an integer-valued key: the value at
that key when present, the given default otherwise. -/
def pyGetIntOr (field : Option Int) (default : PyVal) : PyVal :=
  match field with
  | some n => PyVal.vint n
  | none => default

/-- pydantic validation of a value against `Optional[int]`: an `int`
passes through; a `str` is coerced with the Python `int(...)` conversion, which
rejects the empty string (and any non-numeric string), raising
`ValidationError`. -/
def validate_optional_int (v : PyVal) : Except TransformError (Option Int) :=
  match v with
  | PyVal.vint n => Except.ok (some n)
  | PyVal.vstr s =>
    match s.toInt? with
    | some n => Except.ok (some n)
    | none => Except.error TransformError.validationError

/-- Embedding of `transform_note` of `hackmd.py`, line for line:

* `id=post["id"]`, `title=post["title"]` — `KeyError` when absent;
* `content=post.get("content", "")`;
* `publishDate=post.get("publishedAt", post.get("createdAt", ""))` and
  `lastModified=post.get("lastChangedAt", "")`, each then validated by
  pydantic against `Optional[int]` (so the `""` default fails);
* `excerpt=post.get("excerpt") or post.get("content", "")[:200] + "..."`
  (Python `or`: an absent or empty excerpt falls back to the truncation);
* `slug=post.get("permalink") or post.get("shortId", "")`;
* `coverImage`, `readingTime` pass through. -/
def transform_note (post : RawNote) : Except TransformError BlogPost :=
  match post.id with
  | none => Except.error TransformError.keyError
  | some id =>
    match post.title with
    | none => Except.error TransformError.keyError
    | some title =>
      match validate_optional_int
          (pyGetIntOr post.publishedAt (pyGetIntOr post.createdAt (PyVal.vstr ""))) with
      | Except.error e => Except.error e
      | Except.ok publishDate =>
        match validate_optional_int (pyGetIntOr post.lastChangedAt (PyVal.vstr "")) with
        | Except.error e => Except.error e
        | Except.ok lastModified =>
          Except.ok
            { id := id
              title := title
              content := post.content.getD ""
              publishDate := publishDate
              lastModified := lastModified
              excerpt :=
                match post.excerpt with
                | some s => if s = "" then (post.content.getD "").take 200 ++ "..." else s
                | none => (post.content.getD "").take 200 ++ "..."
              slug :=
                match post.permalink with
                | some s => if s = "" then post.shortId.getD "" else s
                | none => post.shortId.getD ""
              coverImage := post.coverImage
              readingTime := post.readingTime }

/-- The cache file `data/notes_cache.json`: `none` when the file does not
exist, `some notes` when it exists and holds the serialized collection. -/
abbrev CacheState := Option (List BlogPost)

/-- Embedding of `get_from_cache` of `hackmd.py`: returns the deserialized collection
when the cache file exists, `None` otherwise.  (Round-trip fidelity of
the JSON serialization is assumed, so the read yields the stored list.) -/
def get_from_cache (cache : CacheState) : Option (List BlogPost) :=
  cache

/-- Embedding of `save_to_cache` of `hackmd.py`: writes the collection, fully
replacing any previous cache file. -/
def save_to_cache (notes : List BlogPost) : CacheState :=
  some notes

/-- Oracle for the upstream HackMD API: the outcome of
`GET {HACKMD_API_URL}/notes` and of `GET {HACKMD_API_URL}/notes/{x}`
(used both with a `shortId` in the list loop and with a `slug` in
`fetch_blog_post`). -/
structure Upstream where
  listNotes : Except RequestException (List RawNote)
  getNote : String → Except RequestException RawNote

/-- A failure inside the COLD branch of `fetch_blog_notes`:
`requestFailed` from `raise_for_status` / transport (caught by the inner
`except requests.exceptions.RequestException`), `missingShortId` from the
`note["shortId"]` lookup (a `KeyError`, caught by the outer
`except Exception`), `badRecord` from `transform_note` (also caught by
the outer handler).  All three are re-raised as `HTTPException(500)`. -/
inductive ColdFailure where
  | requestFailed (e : RequestException)
  | missingShortId
  | badRecord (e : TransformError)
deriving DecidableEq, Repr

/-- The per-note detail loop of `fetch_blog_notes`: for each raw note of
the list response, `GET /notes/{note["shortId"]}` with
`raise_for_status`, accumulating the detail JSON bodies in order.  Also
counts the detail HTTP calls actually issued (the loop stops at the
first failure). -/
def fetchDetails (up : Upstream) : List RawNote → Except ColdFailure (List RawNote) × Nat
  | [] => (Except.ok [], 0)
  | note :: rest =>
    match note.shortId with
    | none => (Except.error ColdFailure.missingShortId, 0)
    | some sid =>
      match up.getNote sid with
      | Except.error e => (Except.error (ColdFailure.requestFailed e), 1)
      | Except.ok detail =>
        match fetchDetails up rest with
        | (Except.ok details, c) => (Except.ok (detail :: details), c + 1)
        | (Except.error e, c) => (Except.error e, c + 1)

/-- The COLD branch of `fetch_blog_notes`: `GET /notes`, then the detail
loop, then `[transform_note(post) for post in posts]` (which aborts at
the first bad record).  Returns the transformed collection together with
the number of upstream HTTP calls (1 for the list + one per detail call
issued). -/
def coldFetch (up : Upstream) : Except ColdFailure (List BlogPost) × Nat :=
  match up.listNotes with
  | Except.error e => (Except.error (ColdFailure.requestFailed e), 1)
  | Except.ok note_list =>
    match fetchDetails up note_list with
    | (Except.error e, c) => (Except.error e, 1 + c)
    | (Except.ok posts, c) =>
      match posts.mapM transform_note with
      | Except.error e => (Except.error (ColdFailure.badRecord e), 1 + c)
      | Except.ok transformed_notes => (Except.ok transformed_notes, 1 + c)

/-- Handler for `GET /notes`, `fetch_blog_notes` of `hackmd.py`.
`if cached_notes := get_from_cache():` — the cached collection is
returned only when it is truthy, i.e. present AND non-empty (an existing
cache file holding `[]` falls through to the COLD branch).  On COLD
success the full collection is written with `save_to_cache`; every COLD
failure surfaces as `HTTPException(500)` and nothing is written.
Returns (result, final cache state, number of upstream calls). -/
def fetch_blog_notes (up : Upstream) (cache : CacheState) :
    Except ApiError (List BlogPost) × CacheState × Nat :=
  match get_from_cache cache with
  | some cached_notes =>
    if cached_notes.isEmpty then
      match coldFetch up with
      | (Except.ok transformed_notes, c) =>
        (Except.ok transformed_notes, save_to_cache transformed_notes, c)
      | (Except.error _, c) => (Except.error (ApiError.httpException 500), cache, c)
    else
      (Except.ok cached_notes, cache, 0)
  | none =>
    match coldFetch up with
    | (Except.ok transformed_notes, c) =>
      (Except.ok transformed_notes, save_to_cache transformed_notes, c)
    | (Except.error _, c) => (Except.error (ApiError.httpException 500), cache, c)

/-- Handler for `GET /notes/{slug}`, `fetch_blog_post` of `hackmd.py`.
When the cache is truthy, scan it for the first post with the requested
slug and return it (no upstream call).  Otherwise fall back to
`GET /notes/{slug}`: a `RequestException` becomes `HTTPException(500)`;
on success the body is normalized by `transform_note` OUTSIDE the `try`
block, so a transform failure escapes uncaught.  The cache is never
written.  Returns (result, final cache state, upstream calls). -/
def fetch_blog_post (up : Upstream) (cache : CacheState) (slug : String) :
    Except ApiError BlogPost × CacheState × Nat :=
  let cachedHit : Option BlogPost :=
    match get_from_cache cache with
    | some cached_notes =>
      if cached_notes.isEmpty then none
      else cached_notes.find? (fun post => post.slug == slug)
    | none => none
  match cachedHit with
  | some post => (Except.ok post, cache, 0)
  | none =>
    match up.getNote slug with
    | Except.error _ => (Except.error (ApiError.httpException 500), cache, 1)
    | Except.ok post =>
      match transform_note post with
      | Except.error e => (Except.error (ApiError.uncaught e), cache, 1)
      | Except.ok blog_post => (Except.ok blog_post, cache, 1)

/-- Handler for `POST /notes/refresh`, `refresh_blog_notes` of `hackmd.py`:
unlink the cache file if it exists (leaving the cache absent), then run
`fetch_blog_notes` on the now-absent cache. -/
def refresh_blog_notes (up : Upstream) (_cache : CacheState) :
    Except ApiError (List BlogPost) × CacheState × Nat :=
  fetch_blog_notes up none

/-! Concrete fixtures used by witnesses and counterexamples. -/

/-- A fully populated raw note, as returned by the detail endpoint. -/
def rawDetail0 : RawNote :=
  { id := some "id0"
    title := some "T0"
    content := some "c0"
    publishedAt := some 5
    createdAt := some 1
    lastChangedAt := some 7
    excerpt := some "E"
    permalink := some "hello-world"
    shortId := some "s0"
    coverImage := none
    readingTime := none }

/-- The summary-list entry for `rawDetail0` (the list endpoint omits the
body content). -/
def rawSummary0 : RawNote :=
  { rawDetail0 with content := none }

/-- The normalization of `rawDetail0`. -/
def postDetail0 : BlogPost :=
  { id := "id0"
    title := "T0"
    content := "c0"
    publishDate := some 5
    lastModified := some 7
    excerpt := "E"
    slug := "hello-world"
    coverImage := none
    readingTime := none }

/-- Upstream with a single note: the list call returns the summary of
`rawDetail0`, and the detail call for its shortId succeeds. -/
def upOne : Upstream :=
  { listNotes := Except.ok [rawSummary0]
    getNote := fun sid =>
      if sid = "s0" then Except.ok rawDetail0
      else Except.error (RequestException.httpStatus 404) }

/-- Upstream whose list call succeeds with an empty collection and whose
detail calls all fail. -/
def upEmptyList : Upstream :=
  { listNotes := Except.ok []
    getNote := fun _ => Except.error RequestException.transport }

/-- Upstream that is entirely unreachable. -/
def upDown : Upstream :=
  { listNotes := Except.error RequestException.transport
    getNote := fun _ => Except.error RequestException.transport }

/-- Upstream whose list call succeeds but every single-note call answers
404. -/
def up404 : Upstream :=
  { listNotes := Except.ok []
    getNote := fun _ => Except.error (RequestException.httpStatus 404) }

/-- Upstream whose list call succeeds with one note but whose detail
calls fail. -/
def upDetailFail : Upstream :=
  { listNotes := Except.ok [rawSummary0]
    getNote := fun _ => Except.error RequestException.transport }

/-- The raw note of the spec scenario for the excerpt rule:
`{id:"1", title:"Hi", content:"short", permalink:"hi"}`, no excerpt and
no timestamp fields. -/
def rnHi : RawNote :=
  { id := some "1"
    title := some "Hi"
    content := some "short"
    publishedAt := none
    createdAt := none
    lastChangedAt := none
    excerpt := none
    permalink := some "hi"
    shortId := none
    coverImage := none
    readingTime := none }

/-- The spec-scenario note with integer timestamps added. -/
def rnHiDated : RawNote :=
  { rnHi with createdAt := some 0, lastChangedAt := some 0 }

/-- The normalization of `rnHiDated`. -/
def postHiDated : BlogPost :=
  { id := "1"
    title := "Hi"
    content := "short"
    publishDate := some 0
    lastModified := some 0
    excerpt := "short..."
    slug := "hi"
    coverImage := none
    readingTime := none }

/-- A raw note carrying `createdAt` and `lastChangedAt` but no
`publishedAt`. -/
def rnCreatedOnly : RawNote :=
  { id := some "1"
    title := some "T"
    content := some "c"
    publishedAt := none
    createdAt := some 1
    lastChangedAt := some 7
    excerpt := none
    permalink := some "p"
    shortId := none
    coverImage := none
    readingTime := none }

/-- The normalization of `rnCreatedOnly`: `publishDate` fell back to the
`createdAt` value. -/
def postCreatedOnly : BlogPost :=
  { id := "1"
    title := "T"
    content := "c"
    publishDate := some 1
    lastModified := some 7
    excerpt := "c..."
    slug := "p"
    coverImage := none
    readingTime := none }

/-- A raw note with no timestamp field at all. -/
def rnNoDates : RawNote :=
  { rnCreatedOnly with createdAt := none, lastChangedAt := none }

/-- A raw note with `publishedAt` but no `lastChangedAt`. -/
def rnPubOnly : RawNote :=
  { rnNoDates with publishedAt := some 5 }

/-- A raw note with neither `permalink` nor `shortId` (timestamps
present so that normalization reaches the slug computation). -/
def rnNoSlugKeys : RawNote :=
  { id := some "1"
    title := some "T"
    content := some "c"
    publishedAt := none
    createdAt := some 0
    lastChangedAt := some 0
    excerpt := none
    permalink := none
    shortId := none
    coverImage := none
    readingTime := none }

/-- The normalization of `rnNoSlugKeys`: the slug silently defaults to
the empty string. -/
def postEmptySlug : BlogPost :=
  { id := "1"
    title := "T"
    content := "c"
    publishDate := some 0
    lastModified := some 0
    excerpt := "c..."
    slug := ""
    coverImage := none
    readingTime := none }

/-! Helper lemmas about the pipeline. -/

/-- The COLD branch always issues at least the list call. -/
theorem coldFetch_calls_pos (up : Upstream) : 1 ≤ (coldFetch up).2 := by
  unfold coldFetch
  split
  · exact Nat.le_refl 1
  · split
    · exact Nat.le_add_right 1 _
    · split
      · exact Nat.le_add_right 1 _
      · exact Nat.le_add_right 1 _

/-- On an absent cache, a successful COLD branch is returned and written
to the cache in full. -/
theorem fetch_blog_notes_none_ok (up : Upstream) (ts : List BlogPost)
    (h : (coldFetch up).1 = Except.ok ts) :
    fetch_blog_notes up none = (Except.ok ts, some ts, (coldFetch up).2) := by
  unfold fetch_blog_notes get_from_cache save_to_cache
  rcases hc : coldFetch up with ⟨r, c⟩
  rw [hc] at h
  simp only at h
  subst h
  simp

/-- On an absent cache, a failing COLD branch surfaces as
`HTTPException(500)` and nothing is written. -/
theorem fetch_blog_notes_none_err (up : Upstream) (e : ColdFailure)
    (h : (coldFetch up).1 = Except.error e) :
    fetch_blog_notes up none =
      (Except.error (ApiError.httpException 500), none, (coldFetch up).2) := by
  unfold fetch_blog_notes get_from_cache
  rcases hc : coldFetch up with ⟨r, c⟩
  rw [hc] at h
  simp only at h
  subst h
  simp

/-- If some note of the list has a failing detail call (or every earlier
note already fails), the detail loop fails. -/
theorem fetchDetails_err_of_mem (up : Upstream) (l : List RawNote) (n : RawNote)
    (sid : String) (e : RequestException) (hn : n ∈ l) (hs : n.shortId = some sid)
    (hg : up.getNote sid = Except.error e) :
    ∃ f, (fetchDetails up l).1 = Except.error f := by
  induction l with
  | nil => cases hn
  | cons a rest ih =>
    rcases List.mem_cons.mp hn with rfl | hmem
    · simp only [fetchDetails, hs, hg]
      exact ⟨ColdFailure.requestFailed e, rfl⟩
    · rcases ha : a.shortId with _ | sid2
      · simp only [fetchDetails, ha]
        exact ⟨ColdFailure.missingShortId, rfl⟩
      · rcases hga : up.getNote sid2 with e2 | detail
        · simp only [fetchDetails, ha, hga]
          exact ⟨ColdFailure.requestFailed e2, rfl⟩
        · rcases ih hmem with ⟨f, hf⟩
          simp only [fetchDetails, ha, hga]
          rcases hrest : fetchDetails up rest with ⟨r, c⟩
          rw [hrest] at hf
          rcases r with e3 | details
          · exact ⟨e3, rfl⟩
          · simp at hf

/-- A failing upstream list call makes the COLD list fetch answer
`HTTPException(500)` with nothing written. -/
theorem cold_list_failure_500 (up : Upstream) (e : RequestException)
    (h : up.listNotes = Except.error e) :
    fetch_blog_notes up none = (Except.error (ApiError.httpException 500), none, 1) := by
  have hc : coldFetch up = (Except.error (ColdFailure.requestFailed e), 1) := by
    unfold coldFetch
    rw [h]
  have hr := fetch_blog_notes_none_err up (ColdFailure.requestFailed e) (by rw [hc])
  rw [hc] at hr
  simpa using hr

/-- A failing detail call for any member of the upstream list makes the
COLD list fetch answer `HTTPException(500)` with nothing written. -/
theorem cold_detail_failure_500 (up : Upstream) (l : List RawNote) (n : RawNote)
    (sid : String) (e : RequestException) (hl : up.listNotes = Except.ok l) (hn : n ∈ l)
    (hs : n.shortId = some sid) (hg : up.getNote sid = Except.error e) :
    fetch_blog_notes up none =
      (Except.error (ApiError.httpException 500), none, (coldFetch up).2) := by
  rcases fetchDetails_err_of_mem up l n sid e hn hs hg with ⟨f, hf⟩
  have hcold : (coldFetch up).1 = Except.error f := by
    rcases hd : fetchDetails up l with ⟨r, c⟩
    rw [hd] at hf
    simp only at hf
    subst hf
    simp only [coldFetch, hl, hd]
  exact fetch_blog_notes_none_err up f hcold

/-! Claim theorems. -/

/-- C3: the excerpt rule of `transform_note` matches the claim (raw
excerpt when present and non-empty, otherwise the first 200 characters
of content plus the `"..."` marker, with no out-of-range access), but
the concrete spec scenario `rnHi` does NOT normalize to a Post: the code
defaults the missing timestamp fields to `""`, which the
`Optional[int]` annotations of `BlogPost` reject, so `transform_note`
raises a `ValidationError` on this very input.  The truncation itself
would have produced `"short..."`, and adding integer timestamps to the
same note yields a Post with excerpt `"short..."`. -/
theorem c3_excerpt_example_crashes :
    transform_note rnHi = Except.error TransformError.validationError ∧
    (rnHi.content.getD "").take 200 ++ "..." = "short..." ∧
    transform_note rnHiDated = Except.ok postHiDated :=
  ⟨rfl, rfl, rfl⟩

/-- C9: evaluation of the timestamp handling of `transform_note`.  The
fallback `publishedAt → createdAt` works when `createdAt` is present
(`rnCreatedOnly` gets `publishDate = 1`), but the claimed defaults for
absent fields crash instead of succeeding: with no timestamp at all
(`rnNoDates`), and even with `publishedAt` present but `lastChangedAt`
absent (`rnPubOnly`), the `""` default written by the code fails
pydantic validation against `Optional[int]`, so no Post is produced. -/
theorem c9_timestamp_defaults_crash :
    transform_note rnCreatedOnly = Except.ok postCreatedOnly ∧
    transform_note rnNoDates = Except.error TransformError.validationError ∧
    transform_note rnPubOnly = Except.error TransformError.validationError :=
  ⟨rfl, rfl, rfl⟩

/-- C4 counterexample: a raw note with neither `permalink` nor `shortId`
still normalizes to a Post — its slug silently becomes `""` — rather
than failing with a MalformedUpstreamRecord-style error as claimed. -/
theorem c4_counterexample :
    transform_note rnNoSlugKeys = Except.ok postEmptySlug ∧ postEmptySlug.slug = "" :=
  ⟨rfl, rfl⟩

/-- C4 (amended): whenever `transform_note` produces a Post, its slug is
the raw permalink when present and non-empty, else the raw shortId when
present, else the empty string; normalization never fails for lack of a
slug source. -/
theorem c4_slug_derivation (rn : RawNote) (bp : BlogPost)
    (h : transform_note rn = Except.ok bp) :
    bp.slug = (match rn.permalink with
      | some s => if s = "" then rn.shortId.getD "" else s
      | none => rn.shortId.getD "") := by
  obtain ⟨bid, btitle, bcontent, bpd, blm, bex, bslug, bci, brt⟩ := bp
  unfold transform_note at h
  rcases hi : rn.id with _ | i <;> rw [hi] at h
  · exact Except.noConfusion h
  rcases ht : rn.title with _ | t <;> rw [ht] at h
  · exact Except.noConfusion h
  rcases h1 : validate_optional_int
      (pyGetIntOr rn.publishedAt (pyGetIntOr rn.createdAt (PyVal.vstr ""))) with e | pd <;>
    rw [h1] at h
  · exact Except.noConfusion h
  rcases h2 : validate_optional_int (pyGetIntOr rn.lastChangedAt (PyVal.vstr "")) with e | lm <;>
    rw [h2] at h
  · exact Except.noConfusion h
  simp only [Except.ok.injEq, BlogPost.mk.injEq] at h
  exact h.2.2.2.2.2.2.1.symm

/-- Witness for C4 (amended): applied to the fully populated note, whose
permalink is present and non-empty. -/
theorem c4_slug_derivation_witness :
    postDetail0.slug = (match rawDetail0.permalink with
      | some s => if s = "" then rawDetail0.shortId.getD "" else s
      | none => rawDetail0.shortId.getD "") :=
  c4_slug_derivation rawDetail0 postDetail0 rfl

/-- C2: on a WARM cache whose collection has a first match for the
requested slug, `fetch_blog_post` returns exactly that first match,
leaves the cache as is, and performs zero upstream calls. -/
theorem c2_warm_cache_slug_hit (up : Upstream) (notes : List BlogPost) (slug : String)
    (p : BlogPost) (h : notes.find? (fun q => q.slug == slug) = some p) :
    fetch_blog_post up (some notes) slug = (Except.ok p, some notes, 0) := by
  cases notes with
  | nil => simp at h
  | cons a l => simp [fetch_blog_post, get_from_cache, h]

/-- Witness for C2: a one-post warm cache and an unreachable upstream;
the cached post with slug `"hello-world"` is returned untouched. -/
theorem c2_warm_cache_slug_hit_witness :
    fetch_blog_post upDown (some [postDetail0]) "hello-world" =
      (Except.ok postDetail0, some [postDetail0], 0) :=
  c2_warm_cache_slug_hit upDown [postDetail0] "hello-world" postDetail0 rfl

/-- C7: `fetch_blog_post` never modifies the cache — whatever the cache
state, the requested slug, and the upstream outcome (cache hit, upstream
fallback success, upstream failure, or a transform failure escaping
uncaught), the cache after the call is exactly the cache before it. -/
theorem c7_fetch_post_cache_frame (up : Upstream) (cache : CacheState) (slug : String) :
    (fetch_blog_post up cache slug).2.1 = cache := by
  rcases cache with _ | notes
  · rcases hg : up.getNote slug with e | post
    · simp [fetch_blog_post, get_from_cache, hg]
    · rcases ht : transform_note post with e | bp <;>
        simp [fetch_blog_post, get_from_cache, hg, ht]
  · rcases notes with _ | ⟨a, l⟩
    · rcases hg : up.getNote slug with e | post
      · simp [fetch_blog_post, get_from_cache, hg]
      · rcases ht : transform_note post with e | bp <;>
          simp [fetch_blog_post, get_from_cache, hg, ht]
    · rcases hf : (a :: l).find? (fun post => post.slug == slug) with _ | p
      · rcases hg : up.getNote slug with e | post
        · simp [fetch_blog_post, get_from_cache, hf, hg]
        · rcases ht : transform_note post with e | bp <;>
            simp [fetch_blog_post, get_from_cache, hf, hg, ht]
      · simp [fetch_blog_post, get_from_cache, hf]

/-- C8 counterexample: requesting a slug that is in no cache (cache
absent) while upstream answers 404 yields the generic
`HTTPException(500)`, which is not the distinguished `notFound`
outcome the claim requires. -/
theorem c8_counterexample :
    fetch_blog_post up404 none "missing" =
      (Except.error (ApiError.httpException 500), none, 1) ∧
    (Except.error (ApiError.httpException 500) : Except ApiError BlogPost) ≠
      Except.error ApiError.notFound :=
  ⟨rfl, by simp⟩

/-- C8 (amended): on an empty or absent cache, any upstream failure of
the single-note fetch — including a 404 not-found — surfaces as the
generic `HTTPException(500)` with the cache unchanged; the code never
maps it to a distinguished not-found error. -/
theorem c8_missing_slug_is_generic_500 (up : Upstream) (cache : CacheState) (slug : String)
    (e : RequestException) (hcache : cache = none ∨ cache = some [])
    (h : up.getNote slug = Except.error e) :
    fetch_blog_post up cache slug = (Except.error (ApiError.httpException 500), cache, 1) := by
  rcases hcache with rfl | rfl <;> simp [fetch_blog_post, get_from_cache, h]

/-- Witness for C8 (amended): the 404-answering upstream, against the
existing-but-empty cache and against the absent cache. -/
theorem c8_missing_slug_is_generic_500_witness :
    fetch_blog_post up404 (some []) "missing" =
      (Except.error (ApiError.httpException 500), some [], 1) ∧
    fetch_blog_post up404 none "gone" =
      (Except.error (ApiError.httpException 500), none, 1) :=
  ⟨c8_missing_slug_is_generic_500 up404 (some []) "missing" (RequestException.httpStatus 404)
      (Or.inr rfl) rfl,
    c8_missing_slug_is_generic_500 up404 none "gone" (RequestException.httpStatus 404)
      (Or.inl rfl) rfl⟩

/-- C1 counterexample: a WARM cache holding the empty collection is NOT
returned from cache — the truthiness test `if cached_notes :=
get_from_cache():` treats `[]` like an absent cache, so the list fetch
performs an upstream call (here 1, not 0 as the claim requires). -/
theorem c1_empty_collection_counterexample :
    fetch_blog_notes upEmptyList (some []) = (Except.ok [], some [], 1) ∧ (1 : Nat) ≠ 0 :=
  ⟨rfl, by decide⟩

/-- C1 (amended): a WARM cache holding a non-empty collection is
returned directly with zero upstream calls; on a COLD (absent) cache a
successful fetch performs at least one upstream call, returns the
normalized collection and writes it to the cache in full, after which a
further list fetch performs zero upstream calls provided the collection
is non-empty (an empty cached collection is re-fetched as if COLD). -/
theorem c1_cache_policy (up : Upstream) :
    (∀ notes : List BlogPost, notes ≠ [] →
      fetch_blog_notes up (some notes) = (Except.ok notes, some notes, 0)) ∧
    (∀ ts : List BlogPost, (coldFetch up).1 = Except.ok ts →
      fetch_blog_notes up none = (Except.ok ts, some ts, (coldFetch up).2) ∧
      1 ≤ (coldFetch up).2 ∧
      (ts ≠ [] → fetch_blog_notes up (some ts) = (Except.ok ts, some ts, 0))) := by
  have warm : ∀ notes : List BlogPost, notes ≠ [] →
      fetch_blog_notes up (some notes) = (Except.ok notes, some notes, 0) := by
    intro notes hne
    cases notes with
    | nil => exact absurd rfl hne
    | cons a l => simp [fetch_blog_notes, get_from_cache]
  refine ⟨warm, fun ts hok => ⟨fetch_blog_notes_none_ok up ts hok, coldFetch_calls_pos up,
    warm ts⟩⟩

/-- Witness for C1 (amended): the one-note upstream; the COLD fetch
caches the normalized post, and both warm reads cost zero upstream
calls. -/
theorem c1_cache_policy_witness :
    fetch_blog_notes upOne (some [postDetail0]) =
      (Except.ok [postDetail0], some [postDetail0], 0) ∧
    fetch_blog_notes upOne none =
      (Except.ok [postDetail0], some [postDetail0], (coldFetch upOne).2) ∧
    1 ≤ (coldFetch upOne).2 := by
  refine ⟨(c1_cache_policy upOne).1 [postDetail0] (by simp), ?_, ?_⟩
  · exact ((c1_cache_policy upOne).2 [postDetail0] rfl).1
  · exact ((c1_cache_policy upOne).2 [postDetail0] rfl).2.1

/-- C5: for every initial cache state, `refresh_blog_notes` performs at
least one upstream call, and on success the resulting cache holds
exactly the freshly fetched, normalized collection, fully replacing any
prior content. -/
theorem c5_refresh_replaces_cache (up : Upstream) (cache : CacheState) :
    1 ≤ (refresh_blog_notes up cache).2.2 ∧
    (∀ ts : List BlogPost, (coldFetch up).1 = Except.ok ts →
      refresh_blog_notes up cache = (Except.ok ts, some ts, (coldFetch up).2)) := by
  constructor
  · unfold refresh_blog_notes
    rcases hc : coldFetch up with ⟨r, c⟩
    have hpos := coldFetch_calls_pos up
    rw [hc] at hpos
    rcases r with e | ts
    · rw [fetch_blog_notes_none_err up e (by rw [hc]), hc]
      exact hpos
    · rw [fetch_blog_notes_none_ok up ts (by rw [hc]), hc]
      exact hpos
  · intro ts hok
    unfold refresh_blog_notes
    exact fetch_blog_notes_none_ok up ts hok

/-- Witness for C5: refreshing over a WARM (empty-collection) cache with
the one-note upstream performs its upstream calls and replaces the
cache with the fresh singleton collection. -/
theorem c5_refresh_replaces_cache_witness :
    1 ≤ (refresh_blog_notes upOne (some [])).2.2 ∧
    refresh_blog_notes upOne (some []) =
      (Except.ok [postDetail0], some [postDetail0], (coldFetch upOne).2) :=
  ⟨(c5_refresh_replaces_cache upOne (some [])).1,
    (c5_refresh_replaces_cache upOne (some [])).2 [postDetail0] rfl⟩

/-- C6: during a COLD list fetch, an upstream failure — of the list call
itself, or of the detail call of any note in the returned list — makes
`fetch_blog_notes` surface `HTTPException(500)` and leaves the cache
unchanged (still absent): no partial collection is ever written. -/
theorem c6_cold_failure_all_or_nothing (up : Upstream) :
    (∀ e, up.listNotes = Except.error e →
      fetch_blog_notes up none = (Except.error (ApiError.httpException 500), none, 1)) ∧
    (∀ (l : List RawNote) (n : RawNote) (sid : String) (e : RequestException),
      up.listNotes = Except.ok l → n ∈ l → n.shortId = some sid →
      up.getNote sid = Except.error e →
      fetch_blog_notes up none =
        (Except.error (ApiError.httpException 500), none, (coldFetch up).2)) :=
  ⟨fun e he => cold_list_failure_500 up e he,
    fun l n sid e hl hn hs hg => cold_detail_failure_500 up l n sid e hl hn hs hg⟩

/-- Witness for C6: the dead upstream (list call fails), and the
upstream whose list call succeeds but whose detail call fails; both
yield a 500 with nothing cached. -/
theorem c6_cold_failure_all_or_nothing_witness :
    fetch_blog_notes upDown none = (Except.error (ApiError.httpException 500), none, 1) ∧
    fetch_blog_notes upDetailFail none =
      (Except.error (ApiError.httpException 500), none, (coldFetch upDetailFail).2) :=
  ⟨(c6_cold_failure_all_or_nothing upDown).1 RequestException.transport rfl,
    (c6_cold_failure_all_or_nothing upDetailFail).2 [rawSummary0] rawSummary0 "s0"
      RequestException.transport rfl (List.mem_singleton.mpr rfl) rfl rfl⟩

/-- C10: `refresh_blog_notes` unlinks the cache file before fetching, so
for every prior cache state, when the upstream fetch fails — the list
call itself, or the detail call of any note in the returned list — the
refresh reports the error and the cache ends up absent: whatever
collection was cached before the call is lost (refresh is not atomic on
error). -/
theorem c10_failed_refresh_loses_cache (up : Upstream) (cache : CacheState) :
    (∀ e, up.listNotes = Except.error e →
      refresh_blog_notes up cache = (Except.error (ApiError.httpException 500), none, 1)) ∧
    (∀ (l : List RawNote) (n : RawNote) (sid : String) (e : RequestException),
      up.listNotes = Except.ok l → n ∈ l → n.shortId = some sid →
      up.getNote sid = Except.error e →
      refresh_blog_notes up cache =
        (Except.error (ApiError.httpException 500), none, (coldFetch up).2)) := by
  unfold refresh_blog_notes
  exact ⟨fun e he => cold_list_failure_500 up e he,
    fun l n sid e hl hn hs hg => cold_detail_failure_500 up l n sid e hl hn hs hg⟩

/-- Witness for C10: a WARM cache holding one post is gone after a
refresh against the dead upstream, and likewise after a refresh whose
list call succeeds but whose detail call fails. -/
theorem c10_failed_refresh_loses_cache_witness :
    refresh_blog_notes upDown (some [postDetail0]) =
      (Except.error (ApiError.httpException 500), none, 1) ∧
    refresh_blog_notes upDetailFail (some [postDetail0]) =
      (Except.error (ApiError.httpException 500), none, (coldFetch upDetailFail).2) :=
  ⟨(c10_failed_refresh_loses_cache upDown (some [postDetail0])).1
      RequestException.transport rfl,
    (c10_failed_refresh_loses_cache upDetailFail (some [postDetail0])).2 [rawSummary0]
      rawSummary0 "s0" RequestException.transport rfl (List.mem_singleton.mpr rfl) rfl rfl⟩
